import Mathlib

/-!
# Sourcegraph repository scanner (`main.go`)

A shallow embedding of the scanner: the response envelope, the request
executor `makeGraphQLRequest`, the three query wrappers and the orchestrator
`main`, followed by the properties of the specification.

Modelling conventions.

* Go strings and byte slices are Lean strings; a Go slice is a `List`
  (the `nil` slice and the empty slice are both `[]`, which is what `len`
  and `range` observe).
* A Go `error` is a value of `GoError`, identified by the text that
  `Error()` yields; a returned pair `(v, err)` is `v × Option GoError`,
  `none` standing for `nil`.
* Everything outside the program (process environment, network, remote
  server) is a world of an arbitrary type `σ`, threaded through every call.
  The library routines the program calls are the fields of `Env`; the
  theorems hold for every `Env`.
* Every effectful function returns, with its value and the new world, the
  trace of events it produced: one `Event.call` per invocation of the request
  executor and one `Event.print` per `fmt.Println`, holding the text the call
  writes before its final newline. Standard output is the sequence of these
  texts, each followed by a newline (`stdoutChars`); its lines are
  `outputLines`. A text that holds a newline spans several lines.
-/

namespace SourcegraphScanner

/-! ## Data model (`main.go`, lines 12-43) -/

/-- Constant `apiURL` of line 13. -/
def apiURL : String := "https://sourcegraph.com/.api"

/-- Struct `Repository` of lines 16-18. -/
structure Repository where
  Name : String
  deriving DecidableEq, Repr

/-- Struct `Organization` of lines 20-22. -/
structure Organization where
  Name : String
  deriving DecidableEq, Repr

/-- Field `Data.Organizations` of `GraphQLResponse` (lines 26-28). -/
structure OrganizationsData where
  Nodes : List Organization
  deriving DecidableEq, Repr

/-- Field `Data.Organization.Repositories` (lines 30-32). -/
structure RepositoriesData where
  Nodes : List Repository
  deriving DecidableEq, Repr

/-- Field `Data.Organization` (lines 29-33). -/
structure OrganizationData where
  Repositories : RepositoriesData
  deriving DecidableEq, Repr

/-- Field `Data.Repository.File` (lines 35-37). -/
structure FileData where
  IsDirectory : Bool
  deriving DecidableEq, Repr

/-- Field `Data.Repository` (lines 34-38). -/
structure RepositoryData where
  File : FileData
  deriving DecidableEq, Repr

/-- Field `Data` of `GraphQLResponse` (lines 25-39). -/
structure ResponseData where
  Organizations : OrganizationsData
  Organization : OrganizationData
  Repository : RepositoryData
  deriving DecidableEq, Repr

/-- Element type of `GraphQLResponse.Errors` (lines 40-42). -/
structure ErrorEntry where
  Message : String
  deriving DecidableEq, Repr

/-- Struct `GraphQLResponse` of lines 24-43. -/
structure GraphQLResponse where
  Data : ResponseData
  Errors : List ErrorEntry
  deriving DecidableEq, Repr

/-- The zero value that `var response GraphQLResponse` declares. -/
def GraphQLResponse.zero : GraphQLResponse :=
  { Data :=
      { Organizations := { Nodes := [] }
        Organization := { Repositories := { Nodes := [] } }
        Repository := { File := { IsDirectory := false } } }
    Errors := [] }

/-- A Go `error` value, identified by the text of its `Error()` method. -/
structure GoError where
  msg : String
  deriving DecidableEq, Repr

/-! ## The outside world -/

/-- An `*http.Request` as the program builds it. -/
structure HttpRequest where
  method : String
  url : String
  header : List (String × String)
  body : String
  deriving DecidableEq, Repr

/-- The method `Header.Set`: replaces the values stored under the key. -/
def HttpRequest.setHeader (r : HttpRequest) (k v : String) : HttpRequest :=
  { r with header := r.header.filter (fun kv => kv.1 != k) ++ [(k, v)] }

/-- What `client.Do` followed by `ioutil.ReadAll(resp.Body)` can yield
(lines 140-148): `client.Do` fails, or it answers with a status and reading
the body fails, or status and body are both obtained. -/
inductive Exchange where
  | doFailed (e : GoError)
  | readFailed (status : Int) (e : GoError)
  | done (status : Int) (body : String)
  deriving DecidableEq, Repr

/-- The library and system routines `makeGraphQLRequest` calls.
`unmarshal body c` is `json.Unmarshal(body, &c)`: it yields the container as
the decoder leaves it and the decoder's error, if any. -/
structure Env (σ : Type) where
  getenv : String → σ → String
  marshal : List (String × String) → Except GoError String
  newRequest : String → String → String → Except GoError HttpRequest
  roundTrip : HttpRequest → σ → Exchange × σ
  unmarshal : String → GraphQLResponse → GraphQLResponse × Option GoError

/-- An observable action of the program. -/
inductive Event where
  | call (query : String)
  | print (line : String)
  deriving DecidableEq, Repr

/-- Value, new world and produced trace of an effectful function. -/
structure Res (α σ : Type) where
  val : α
  world : σ
  trace : List Event

/-- The texts written by the `fmt.Println` calls of a trace, in order, each
without the newline that ends it. -/
def printed : List Event → List String
  | [] => []
  | Event.print l :: t => l :: printed t
  | Event.call _ :: t => printed t

/-- The queries handed to the request executor in a trace, in order. -/
def queries : List Event → List String
  | [] => []
  | Event.call q :: t => q :: queries t
  | Event.print _ :: t => queries t

/-- The bytes the program writes to standard output: the text of every
`fmt.Println` call, each followed by a newline. -/
def stdoutChars : List Event → List Char
  | [] => []
  | Event.print l :: t => l.data ++ '\n' :: stdoutChars t
  | Event.call _ :: t => stdoutChars t

/-- The lines of a text: every newline ends a line; characters after the
last newline form a last line. -/
def splitLines : List Char → List (List Char)
  | [] => []
  | c :: cs =>
    if c = '\n' then [] :: splitLines cs
    else
      match splitLines cs with
      | [] => [[c]]
      | l :: ls => (c :: l) :: ls

/-- The lines of standard output. -/
def outputLines (t : List Event) : List String :=
  (splitLines (stdoutChars t)).map String.mk

/-- No text written by a `fmt.Println` call of the trace holds a newline. -/
def NewlineFree (t : List Event) : Prop :=
  ∀ l ∈ printed t, '\n' ∉ l.data

instance (t : List Event) : Decidable (NewlineFree t) := by
  unfold NewlineFree
  infer_instance


/-! ## Formatting -/

/-- The text `fmt.Println` writes for string and error operands, without the
final newline: the operands separated by single spaces. -/
def sprintln : List String → String
  | [] => ""
  | [a] => a
  | a :: b :: rest => a ++ " " ++ sprintln (b :: rest)

/-- The verb `%v` applied to one element of `Errors`: a struct prints as its
fields between braces. -/
def fmtErrorEntry (e : ErrorEntry) : String :=
  "\x7b" ++ e.Message ++ "\x7d"

/-- Elements of a slice under `%v`, separated by single spaces. -/
def fmtErrorEntries : List ErrorEntry → String
  | [] => ""
  | [e] => fmtErrorEntry e
  | e :: f :: rest => fmtErrorEntry e ++ " " ++ fmtErrorEntries (f :: rest)

/-- The verb `%v` applied to `response.Errors` (line 157). -/
def fmtErrors (es : List ErrorEntry) : String :=
  "[" ++ fmtErrorEntries es ++ "]"

/-- Line 150: `fmt.Errorf("API request failed with status code %d: %s", ...)`. -/
def statusError (status : Int) (body : String) : GoError :=
  ⟨"API request failed with status code " ++ toString status ++ ": " ++ body⟩

/-- Line 157: `fmt.Errorf("GraphQL errors: %v", response.Errors)`. -/
def graphQLError (es : List ErrorEntry) : GoError :=
  ⟨"GraphQL errors: " ++ fmtErrors es⟩

/-! ## Request executor (lines 123-160) -/

/-- Lines 125-148 of `makeGraphQLRequest`: read the token, build the request,
send it and read the whole body. -/
def fetchBody {σ : Type} (env : Env σ) (query : String) (w : σ) :
    Except GoError (Int × String) × σ :=
  let accessToken := env.getenv "SOURCEGRAPH_TOKEN" w
  match env.marshal [("query", query)] with
  | .error err => (.error err, w)
  | .ok reqBody =>
    match env.newRequest "POST" (apiURL ++ "/graphql") reqBody with
    | .error err => (.error err, w)
    | .ok req =>
      let req := req.setHeader "Content-Type" "application/json"
      let req := req.setHeader "Authorization" ("Bearer " ++ accessToken)
      match env.roundTrip req w with
      | (.doFailed err, w1) => (.error err, w1)
      | (.readFailed _ err, w1) => (.error err, w1)
      | (.done status body, w1) => (.ok (status, body), w1)

/-- Function `makeGraphQLRequest` of lines 123-160. The container the caller
passes by pointer comes back as the first component of the value. -/
def makeGraphQLRequest {σ : Type} (env : Env σ) (query : String)
    (response : GraphQLResponse) (w : σ) :
    Res (GraphQLResponse × Option GoError) σ :=
  match fetchBody env query w with
  | (.error err, w1) => ⟨(response, some err), w1, [Event.call query]⟩
  | (.ok (status, body), w1) =>
    if status ≠ 200 then
      ⟨(response, some (statusError status body)), w1, [Event.call query]⟩
    else
      match env.unmarshal body response with
      | (response1, some err) => ⟨(response1, some err), w1, [Event.call query]⟩
      | (response1, none) =>
        if response1.Errors.length > 0 then
          ⟨(response1, some (graphQLError response1.Errors)), w1, [Event.call query]⟩
        else
          ⟨(response1, none), w1, [Event.call query]⟩

/-! ## Query wrappers (lines 72-121) -/

/-- The query text of lines 74-80. -/
def organizationsQuery : String :=
  "\x7b\n\t\torganizations(first: 100) \x7b\n\t\t\tnodes \x7b\n\t\t\t\tname\n\t\t\t\x7d\n\t\t\x7d\n\t\x7d"

/-- The query text of lines 90-98, `%s` replaced by the organization name. -/
def repositoriesQuery (orgName : String) : String :=
  "\x7b\n\t\torganization(name: \"" ++ orgName ++
    "\") \x7b\n\t\t\trepositories(first: 100) \x7b\n\t\t\t\tnodes \x7b\n\t\t\t\t\tname\n\t\t\t\t\x7d\n\t\t\t\x7d\n\t\t\x7d\n\t\x7d"

/-- The query text of lines 108-114, `%s` replaced by the repository name. -/
def gitpodFileQuery (repoName : String) : String :=
  "\x7b\n\t\trepository(name: \"" ++ repoName ++
    "\") \x7b\n\t\t\tfile(name: \".gitpod.yml\") \x7b\n\t\t\t\tisDirectory\n\t\t\t\x7d\n\t\t\x7d\n\t\x7d"

/-- Function `getOrganizations` of lines 72-86. -/
def getOrganizations {σ : Type} (env : Env σ) (w : σ) :
    Res (List Organization × Option GoError) σ :=
  let r := makeGraphQLRequest env organizationsQuery GraphQLResponse.zero w
  match r.val with
  | (_, some err) => ⟨([], some err), r.world, r.trace⟩
  | (response, none) => ⟨(response.Data.Organizations.Nodes, none), r.world, r.trace⟩

/-- Function `getRepositories` of lines 88-104. -/
def getRepositories {σ : Type} (env : Env σ) (orgName : String) (w : σ) :
    Res (List Repository × Option GoError) σ :=
  let r := makeGraphQLRequest env (repositoriesQuery orgName) GraphQLResponse.zero w
  match r.val with
  | (_, some err) => ⟨([], some err), r.world, r.trace⟩
  | (response, none) =>
    ⟨(response.Data.Organization.Repositories.Nodes, none), r.world, r.trace⟩

/-- Function `checkGitpodFile` of lines 106-121. -/
def checkGitpodFile {σ : Type} (env : Env σ) (repoName : String) (w : σ) :
    Res (Bool × Option GoError) σ :=
  let r := makeGraphQLRequest env (gitpodFileQuery repoName) GraphQLResponse.zero w
  match r.val with
  | (_, some err) => ⟨(false, some err), r.world, r.trace⟩
  | (response, none) => ⟨(!response.Data.Repository.File.IsDirectory, none), r.world, r.trace⟩

/-! ## Orchestrator (lines 45-70) -/

/-- Body of the inner loop, lines 60-67, for one repository. -/
def checkRepo {σ : Type} (env : Env σ) (repo : Repository) (w : σ) : Res Unit σ :=
  let r := checkGitpodFile env repo.Name w
  match r.val with
  | (_, some err) =>
    ⟨(), r.world, r.trace ++
      [Event.print (sprintln ["Error checking .gitpod.yml for repository", repo.Name, ":", err.msg])]⟩
  | (hasGitpodFile, none) =>
    if hasGitpodFile then
      ⟨(), r.world, r.trace ++ [Event.print (sprintln ["  - Repository:", repo.Name])]⟩
    else
      ⟨(), r.world, r.trace⟩

/-- The inner loop `for _, repo := range repos` of lines 59-68. -/
def checkRepos {σ : Type} (env : Env σ) : List Repository → σ → Res Unit σ
  | [], w => ⟨(), w, []⟩
  | repo :: rest, w =>
    let r1 := checkRepo env repo w
    let r2 := checkRepos env rest r1.world
    ⟨(), r2.world, r1.trace ++ r2.trace⟩

/-- Body of the outer loop, lines 53-68, for one organization. -/
def processOrg {σ : Type} (env : Env σ) (org : Organization) (w : σ) : Res Unit σ :=
  let line := Event.print (sprintln ["Organization:", org.Name])
  let r := getRepositories env org.Name w
  match r.val with
  | (_, some err) =>
    ⟨(), r.world, line :: r.trace ++
      [Event.print (sprintln ["Error fetching repositories for organization", org.Name, ":", err.msg])]⟩
  | (repos, none) =>
    let r2 := checkRepos env repos r.world
    ⟨(), r2.world, line :: r.trace ++ r2.trace⟩

/-- The outer loop `for _, org := range orgs` of lines 52-69. -/
def processOrgs {σ : Type} (env : Env σ) : List Organization → σ → Res Unit σ
  | [], w => ⟨(), w, []⟩
  | org :: rest, w =>
    let r1 := processOrg env org w
    let r2 := processOrgs env rest r1.world
    ⟨(), r2.world, r1.trace ++ r2.trace⟩

/-- Function `main` of lines 45-70; the value is the process exit code:
`os.Exit(1)` on line 49, `0` when `main` returns. -/
def main {σ : Type} (env : Env σ) (w : σ) : Res Nat σ :=
  let r := getOrganizations env w
  match r.val with
  | (_, some err) =>
    ⟨1, r.world, r.trace ++ [Event.print (sprintln ["Error fetching organizations:", err.msg])]⟩
  | (orgs, none) =>
    let r2 := processOrgs env orgs r.world
    ⟨0, r2.world, r.trace ++ r2.trace⟩

/-! ## Predicates used by the specification -/

/-- A text of the form `Organization: <name>`. -/
def isOrgLine (l : String) : Bool :=
  decide ("Organization: ".data <+: l.data)

/-- A text of the form `  - Repository: <name>`. -/
def isRepoLine (l : String) : Bool :=
  decide ("  - Repository: ".data <+: l.data)

/-- A query built by `getRepositories`: the text of lines 90-91 up to the
interpolated organization name. -/
def isListingQuery (q : String) : Bool :=
  decide ("\x7b\n\t\torganization(name: \"".data <+: q.data)

/-- A query built by `checkGitpodFile`: the text of lines 108-109 up to the
interpolated repository name. -/
def isFileCheckQuery (q : String) : Bool :=
  decide ("\x7b\n\t\trepository(name: \"".data <+: q.data)

/-- The strings of `ms` occur in `t` one after the other, in the order of the
list and without overlapping. -/
def ContainsInOrder : List String → String → Prop
  | [], _ => True
  | m :: ms, t => ∃ before after, t = before ++ m ++ after ∧ ContainsInOrder ms after

/-- The decoder leaves the field `Data.Repository.File` of its container as
it finds it when given `body`: what `json.Unmarshal` does for a body in
which the key `file` is missing or `null`. -/
def LeavesFileField {σ : Type} (env : Env σ) (body : String) : Prop :=
  ∀ c : GraphQLResponse,
    (env.unmarshal body c).1.Data.Repository.File = c.Data.Repository.File

/-- The decoder leaves the field `Errors` of its container as it finds it
when given `body`: what `json.Unmarshal` does for a body without the key
`errors`. -/
def LeavesErrorsField {σ : Type} (env : Env σ) (body : String) : Prop :=
  ∀ c : GraphQLResponse, (env.unmarshal body c).1.Errors = c.Errors

/-! ## Test doubles

A scripted server for the concrete runs: the world is the number of requests
answered so far, the reply to a request depends on the query it carries and
on that number, and the decoder is a table from bodies to decoded values. -/

/-- Test double of `Env`: `respond q n` is the reply to a request carrying the
query `q` when `n` requests were answered before it. -/
def scriptedEnv (respond : String → Nat → Exchange)
    (decode : String → GraphQLResponse → GraphQLResponse × Option GoError) : Env Nat where
  getenv _ _ := "secret"
  marshal kvs := .ok (String.join (kvs.map (fun kv => kv.2)))
  newRequest m u b := .ok ⟨m, u, [], b⟩
  roundTrip req n := (respond req.body n, n + 1)
  unmarshal := decode

/-- Decoder table of the test double. -/
def scriptedDecode (body : String) (c : GraphQLResponse) : GraphQLResponse × Option GoError :=
  if body = "orgs" then
    ({ c with Data := { c.Data with Organizations := { Nodes := [⟨"acme"⟩, ⟨"globex"⟩] } } }, none)
  else if body = "repos" then
    ({ c with Data := { c.Data with
        Organization := { Repositories := { Nodes := [⟨"web"⟩, ⟨"api"⟩, ⟨"docs"⟩] } } } }, none)
  else if body = "file" then
    ({ c with Data := { c.Data with Repository := { File := { IsDirectory := false } } } }, none)
  else if body = "dir" then
    ({ c with Data := { c.Data with Repository := { File := { IsDirectory := true } } } }, none)
  else if body = "nofile" then
    (c, none)
  else if body = "denied" then
    ({ c with Errors := [⟨"not authorized"⟩, ⟨"try again"⟩] }, none)
  else if body = "many" then
    ({ c with Data :=
        { c.Data with
          Organizations := { Nodes := List.replicate 101 ⟨"org"⟩ }
          Organization := { Repositories := { Nodes := List.replicate 101 ⟨"repo"⟩ } } } }, none)
  else
    (c, some ⟨"unexpected end of JSON input"⟩)

/-- What the decoder table makes of the body `dir` in a zero-valued container. -/
def dirResponse : GraphQLResponse :=
  { GraphQLResponse.zero with
    Data := { GraphQLResponse.zero.Data with Repository := { File := { IsDirectory := true } } } }

/-- What the decoder table makes of the body `denied` in a zero-valued container. -/
def deniedResponse : GraphQLResponse :=
  { GraphQLResponse.zero with Errors := [⟨"not authorized"⟩, ⟨"try again"⟩] }

/-- A server that answers every request with status 200 and the same body. -/
def constEnv (body : String) : Env Nat :=
  scriptedEnv (fun _ _ => Exchange.done 200 body) scriptedDecode

/-- A server that answers every request with the given status and body. -/
def statusEnv (status : Int) (body : String) : Env Nat :=
  scriptedEnv (fun _ _ => Exchange.done status body) scriptedDecode

/-- A server with two organizations: listing the repositories of `acme`
fails with status 502, `globex` has three repositories, of which `web` has
the file, the check of `api` fails with status 500 and `docs` holds a
directory under the name of the file. -/
def demoRespond (q : String) (_ : Nat) : Exchange :=
  if q = organizationsQuery then Exchange.done 200 "orgs"
  else if q = repositoriesQuery "acme" then Exchange.done 502 "bad gateway"
  else if q = repositoriesQuery "globex" then Exchange.done 200 "repos"
  else if q = gitpodFileQuery "web" then Exchange.done 200 "file"
  else if q = gitpodFileQuery "api" then Exchange.done 500 "oops"
  else if q = gitpodFileQuery "docs" then Exchange.done 200 "dir"
  else Exchange.doFailed ⟨"connection refused"⟩

/-- The test double built on `demoRespond`. -/
def demoEnv : Env Nat :=
  scriptedEnv demoRespond scriptedDecode

/-- A server that is unreachable. -/
def downEnv : Env Nat :=
  scriptedEnv (fun _ _ => Exchange.doFailed ⟨"connection refused"⟩) scriptedDecode

/-- Test double: one reply for the organizations query, one for every listing
query and one for every file check. -/
def replyEnv (fetch listing check : Exchange) : Env Nat :=
  scriptedEnv
    (fun q _ =>
      if q = organizationsQuery then fetch
      else if isListingQuery q then listing
      else check)
    scriptedDecode

/-- Test double: a server that turns away the first request it receives with
status 503 and serves the later ones. -/
def flakyEnv : Env Nat :=
  scriptedEnv
    (fun q n =>
      if n = 0 then Exchange.done 503 "busy"
      else if isListingQuery q then Exchange.done 200 "repos"
      else Exchange.done 200 "file")
    scriptedDecode

/-- Test double: the server of `demoRespond` with a world that no request
changes. -/
def staticEnv : Env Unit where
  getenv _ _ := "secret"
  marshal kvs := .ok (String.join (kvs.map (fun kv => kv.2)))
  newRequest m u b := .ok ⟨m, u, [], b⟩
  roundTrip req w := (demoRespond req.body 0, w)
  unmarshal := scriptedDecode

/-- Test double: the organizations are fetched and every listing fails with a
body of two lines, the second of which reads `Organization: ghost`. -/
def ghostEnv : Env Nat :=
  replyEnv (Exchange.done 200 "orgs") (Exchange.done 502 "bad gateway\nOrganization: ghost")
    (Exchange.done 200 "file")

/-- Test double: fetching the organizations fails with status 502 and an
error page of four lines. -/
def errorPageEnv : Env Nat :=
  replyEnv (Exchange.done 502 "<html>\nOrganization: x\n  - Repository: y\n</html>")
    (Exchange.done 200 "repos") (Exchange.done 200 "file")

/-- Test double: every listing fails with a body of two lines, the second of
which reads `  - Repository: fake`. -/
def fakeListingEnv : Env Nat :=
  replyEnv (Exchange.done 200 "orgs") (Exchange.done 502 "x\n  - Repository: fake")
    (Exchange.done 200 "file")

theorem printed_append (a b : List Event) : printed (a ++ b) = printed a ++ printed b := by
  induction a with
  | nil => rfl
  | cons e t ih => cases e <;> simp [printed, ih]

theorem queries_append (a b : List Event) : queries (a ++ b) = queries a ++ queries b := by
  induction a with
  | nil => rfl
  | cons e t ih => cases e <;> simp [queries, ih]

/-- Every invocation of the executor is recorded once, whatever its outcome. -/
theorem makeGraphQLRequest_trace {σ : Type} (env : Env σ) (query : String)
    (response : GraphQLResponse) (w : σ) :
    (makeGraphQLRequest env query response w).trace = [Event.call query] := by
  unfold makeGraphQLRequest
  repeat' split
  all_goals rfl

/-- The executor when building, sending or reading fails (lines 131-148). -/
theorem makeGraphQLRequest_of_fetch_error {σ : Type} (env : Env σ) (query : String)
    (response : GraphQLResponse) (w w1 : σ) (err : GoError)
    (hf : fetchBody env query w = (.error err, w1)) :
    makeGraphQLRequest env query response w = ⟨(response, some err), w1, [Event.call query]⟩ := by
  simp [makeGraphQLRequest, hf]

/-- The executor on a status other than 200 (lines 149-151). -/
theorem makeGraphQLRequest_of_status {σ : Type} (env : Env σ) (query : String)
    (response : GraphQLResponse) (w w1 : σ) (status : Int) (body : String)
    (hf : fetchBody env query w = (.ok (status, body), w1)) (hs : status ≠ 200) :
    makeGraphQLRequest env query response w =
      ⟨(response, some (statusError status body)), w1, [Event.call query]⟩ := by
  simp [makeGraphQLRequest, hf, hs]

/-- The executor on status 200 (lines 152-159). -/
theorem makeGraphQLRequest_of_ok {σ : Type} (env : Env σ) (query : String)
    (response : GraphQLResponse) (w w1 : σ) (body : String)
    (hf : fetchBody env query w = (.ok (200, body), w1)) :
    makeGraphQLRequest env query response w =
      match env.unmarshal body response with
      | (response1, some err) => ⟨(response1, some err), w1, [Event.call query]⟩
      | (response1, none) =>
        if response1.Errors.length > 0 then
          ⟨(response1, some (graphQLError response1.Errors)), w1, [Event.call query]⟩
        else
          ⟨(response1, none), w1, [Event.call query]⟩ := by
  simp [makeGraphQLRequest, hf]

/-- The decoder has no part in `fetchBody`. -/
theorem fetchBody_decoder_irrelevant {σ : Type} (env : Env σ)
    (u : String → GraphQLResponse → GraphQLResponse × Option GoError)
    (query : String) (w : σ) :
    fetchBody { env with unmarshal := u } query w = fetchBody env query w := rfl

/-- When the executor reports success, the body was read with status 200 and
the container holds what the decoder made of it, with an empty `Errors`. -/
theorem makeGraphQLRequest_success {σ : Type} (env : Env σ) (query : String)
    (response response1 : GraphQLResponse) (w : σ)
    (h : (makeGraphQLRequest env query response w).val = (response1, none)) :
    ∃ body w1, fetchBody env query w = (.ok (200, body), w1) ∧
      env.unmarshal body response = (response1, none) ∧ response1.Errors = [] := by
  unfold makeGraphQLRequest at h
  split at h
  · simp at h
  · rename_i status body w1 hf
    split at h
    · simp at h
    · rename_i hs
      have hs200 : status = 200 := by simpa using hs
      subst hs200
      split at h
      · simp at h
      · rename_i r1 hd
        split at h
        · simp at h
        · rename_i hlen
          simp at h
          subst h
          refine ⟨body, w1, hf, hd, ?_⟩
          simpa using hlen

theorem getOrganizations_trace {σ : Type} (env : Env σ) (w : σ) :
    (getOrganizations env w).trace = [Event.call organizationsQuery] := by
  simp only [getOrganizations]
  split <;> exact makeGraphQLRequest_trace _ _ _ _

theorem getRepositories_trace {σ : Type} (env : Env σ) (orgName : String) (w : σ) :
    (getRepositories env orgName w).trace = [Event.call (repositoriesQuery orgName)] := by
  simp only [getRepositories]
  split <;> exact makeGraphQLRequest_trace _ _ _ _

theorem checkGitpodFile_trace {σ : Type} (env : Env σ) (repoName : String) (w : σ) :
    (checkGitpodFile env repoName w).trace = [Event.call (gitpodFileQuery repoName)] := by
  simp only [checkGitpodFile]
  split <;> exact makeGraphQLRequest_trace _ _ _ _

/-- The value of `checkGitpodFile` in terms of the executor's value. -/
theorem checkGitpodFile_val {σ : Type} (env : Env σ) (repoName : String) (w : σ) :
    (checkGitpodFile env repoName w).val =
      match (makeGraphQLRequest env (gitpodFileQuery repoName) GraphQLResponse.zero w).val with
      | (_, some err) => (false, some err)
      | (response, none) => (!response.Data.Repository.File.IsDirectory, none) := by
  unfold checkGitpodFile
  split <;> simp_all

/-- The value of `getOrganizations` in terms of the executor's value. -/
theorem getOrganizations_val {σ : Type} (env : Env σ) (w : σ) :
    (getOrganizations env w).val =
      match (makeGraphQLRequest env organizationsQuery GraphQLResponse.zero w).val with
      | (_, some err) => ([], some err)
      | (response, none) => (response.Data.Organizations.Nodes, none) := by
  unfold getOrganizations
  split <;> simp_all

/-- The value of `getRepositories` in terms of the executor's value. -/
theorem getRepositories_val {σ : Type} (env : Env σ) (orgName : String) (w : σ) :
    (getRepositories env orgName w).val =
      match (makeGraphQLRequest env (repositoriesQuery orgName) GraphQLResponse.zero w).val with
      | (_, some err) => ([], some err)
      | (response, none) => (response.Data.Organization.Repositories.Nodes, none) := by
  unfold getRepositories
  split <;> simp_all

/-! ## Facts about the formatted texts -/

theorem containsInOrder_append_left (ms : List String) (p t : String)
    (h : ContainsInOrder ms t) : ContainsInOrder ms (p ++ t) := by
  cases ms with
  | nil => trivial
  | cons m ms =>
    obtain ⟨before, after, ht, hrest⟩ := h
    exact ⟨p ++ before, after, by rw [ht]; simp [String.append_assoc], hrest⟩

/-- The messages occur in order in the `%v` rendering of the elements. -/
theorem containsInOrder_fmtErrorEntries (es : List ErrorEntry) (q : String) :
    ContainsInOrder (es.map (fun e => e.Message)) (fmtErrorEntries es ++ q) := by
  induction es with
  | nil => trivial
  | cons e rest ih =>
    cases rest with
    | nil =>
      exact ⟨"\x7b", "\x7d" ++ q, by simp [fmtErrorEntries, fmtErrorEntry, String.append_assoc],
        trivial⟩
    | cons f rest =>
      refine ⟨"\x7b", "\x7d" ++ (" " ++ (fmtErrorEntries (f :: rest) ++ q)), ?_, ?_⟩
      · simp only [fmtErrorEntries, fmtErrorEntry, String.append_assoc]
      · exact containsInOrder_append_left _ _ _ (containsInOrder_append_left _ _ _ ih)

/-- The messages occur in order in the text of the error of line 157. -/
theorem containsInOrder_graphQLError (es : List ErrorEntry) :
    ContainsInOrder (es.map (fun e => e.Message)) (graphQLError es).msg := by
  unfold graphQLError fmtErrors
  simp only [String.append_assoc]
  exact containsInOrder_append_left _ _ _
    (containsInOrder_append_left _ _ _ (containsInOrder_fmtErrorEntries es "]"))

/-! ## Properties of the request executor and the query wrappers -/

/-- C1: when the request executor succeeds, `checkGitpodFile` returns the
negation of the decoded `IsDirectory` flag with a nil error: `true` when the
flag is `false`, `false` when it is `true`, and `true` when the decoder left
the `File` field of the zero-valued container untouched (key `file` missing
or `null`). -/
theorem checkGitpodFile_negates_decoded_flag {σ : Type} (env : Env σ) (repoName : String)
    (w : σ) (response : GraphQLResponse)
    (h : (makeGraphQLRequest env (gitpodFileQuery repoName) GraphQLResponse.zero w).val
      = (response, none)) :
    (checkGitpodFile env repoName w).val
        = (!response.Data.Repository.File.IsDirectory, none)
      ∧ (response.Data.Repository.File.IsDirectory = false →
          (checkGitpodFile env repoName w).val = (true, none))
      ∧ (response.Data.Repository.File.IsDirectory = true →
          (checkGitpodFile env repoName w).val = (false, none))
      ∧ (∀ status body w1,
          fetchBody env (gitpodFileQuery repoName) w = (.ok (status, body), w1) →
          LeavesFileField env body →
          (checkGitpodFile env repoName w).val = (true, none)) := by
  have hv : (checkGitpodFile env repoName w).val
      = (!response.Data.Repository.File.IsDirectory, none) := by
    rw [checkGitpodFile_val, h]
  refine ⟨hv, ?_, ?_, ?_⟩
  · intro hflag
    rw [hv, hflag]
    rfl
  · intro hflag
    rw [hv, hflag]
    rfl
  · intro status body w1 hf hleave
    obtain ⟨body1, w2, hf1, hd, _⟩ := makeGraphQLRequest_success env _ _ _ w h
    rw [hf] at hf1
    simp only [Prod.mk.injEq, Except.ok.injEq] at hf1
    obtain ⟨⟨_, hb⟩, _⟩ := hf1
    subst hb
    have hfile := hleave GraphQLResponse.zero
    rw [hd] at hfile
    rw [hv]
    simp only at hfile
    rw [hfile]
    rfl

/-- C2: a response read with a status other than 200 makes the executor
return the error `API request failed with status code <code>: <body>`, with
the status in decimal and the body verbatim, and the container as it was
passed; the decoder has no part in the result. -/
theorem makeGraphQLRequest_non200 {σ : Type} (env : Env σ) (query : String)
    (response : GraphQLResponse) (w w1 : σ) (status : Int) (body : String)
    (hf : fetchBody env query w = (.ok (status, body), w1)) (hs : status ≠ 200) :
    (makeGraphQLRequest env query response w).val
        = (response,
            some ⟨"API request failed with status code " ++ toString status ++ ": " ++ body⟩)
      ∧ ∀ u, (makeGraphQLRequest { env with unmarshal := u } query response w).val
          = (response,
              some ⟨"API request failed with status code " ++ toString status ++ ": " ++ body⟩) := by
  refine ⟨?_, ?_⟩
  · rw [makeGraphQLRequest_of_status env query response w w1 status body hf hs]
    rfl
  · intro u
    rw [makeGraphQLRequest_of_status { env with unmarshal := u } query response w w1 status body
      ((fetchBody_decoder_irrelevant env u query w).trans hf) hs]
    rfl

/-- C3: on status 200 with a body that decodes without error, a non-empty
decoded `Errors` makes the executor return the error whose text is
`GraphQL errors: ` followed by the `%v` rendering of the slice, in which every
message occurs in the order of the slice, whatever the `Data` field holds; an
empty `Errors` (also one the decoder left untouched in a container that had
none) makes it return nil. -/
theorem makeGraphQLRequest_errors_array {σ : Type} (env : Env σ) (query : String)
    (response response1 : GraphQLResponse) (w w1 : σ) (body : String)
    (hf : fetchBody env query w = (.ok (200, body), w1))
    (hd : env.unmarshal body response = (response1, none)) :
    (response1.Errors ≠ [] →
        ∃ err, (makeGraphQLRequest env query response w).val = (response1, some err)
          ∧ err.msg = "GraphQL errors: [" ++ fmtErrorEntries response1.Errors ++ "]"
          ∧ ContainsInOrder (response1.Errors.map (fun e => e.Message)) err.msg)
      ∧ (response1.Errors = [] →
          (makeGraphQLRequest env query response w).val = (response1, none))
      ∧ (LeavesErrorsField env body → response.Errors = [] →
          (makeGraphQLRequest env query response w).val = (response1, none)) := by
  have hm := makeGraphQLRequest_of_ok env query response w w1 body hf
  rw [hd] at hm
  simp only at hm
  have hempty : response1.Errors = [] →
      (makeGraphQLRequest env query response w).val = (response1, none) := by
    intro he
    rw [hm, he]
    rfl
  refine ⟨?_, hempty, ?_⟩
  · intro hne
    have hpos : response1.Errors.length > 0 := List.length_pos.mpr hne
    rw [hm, if_pos hpos]
    refine ⟨graphQLError response1.Errors, rfl, ?_, containsInOrder_graphQLError _⟩
    simp only [graphQLError, fmtErrors, String.append_assoc]
    rw [← String.append_assoc "GraphQL errors: " "["]
    rfl
  · intro hleave hnone
    apply hempty
    have := hleave response
    rw [hd] at this
    simpa [hnone] using this

/-- Witness of C1: a reply without the key `file` is reported as found. -/
theorem checkGitpodFile_negates_decoded_flag_witness :
    (makeGraphQLRequest (constEnv "nofile") (gitpodFileQuery "web") GraphQLResponse.zero 0).val
        = (GraphQLResponse.zero, none)
      ∧ fetchBody (constEnv "nofile") (gitpodFileQuery "web") 0 = (.ok (200, "nofile"), 1)
      ∧ LeavesFileField (constEnv "nofile") "nofile"
      ∧ (checkGitpodFile (constEnv "nofile") "web" 0).val = (true, none) :=
  ⟨by decide, rfl, fun _ => rfl,
    (checkGitpodFile_negates_decoded_flag (constEnv "nofile") "web" 0 GraphQLResponse.zero
      (by decide)).2.2.2 200 "nofile" 1 rfl (fun _ => rfl)⟩

/-- Witness of C2: a 404 reply. -/
theorem makeGraphQLRequest_non200_witness :
    fetchBody (statusEnv 404 "Not Found") organizationsQuery 0 = (.ok (404, "Not Found"), 1)
      ∧ (404 : Int) ≠ 200
      ∧ (makeGraphQLRequest (statusEnv 404 "Not Found") organizationsQuery
            GraphQLResponse.zero 0).val
          = (GraphQLResponse.zero,
              some ⟨"API request failed with status code 404: Not Found"⟩) :=
  ⟨rfl, by decide,
    (makeGraphQLRequest_non200 (statusEnv 404 "Not Found") organizationsQuery
      GraphQLResponse.zero 0 1 404 "Not Found" rfl (by decide)).1⟩

/-- Witness of C3: a reply with two entries in `errors`. -/
theorem makeGraphQLRequest_errors_array_witness :
    fetchBody (constEnv "denied") organizationsQuery 0 = (.ok (200, "denied"), 1)
      ∧ (constEnv "denied").unmarshal "denied" GraphQLResponse.zero = (deniedResponse, none)
      ∧ (makeGraphQLRequest (constEnv "denied") organizationsQuery GraphQLResponse.zero 0).val
          = (deniedResponse,
              some ⟨"GraphQL errors: [\x7bnot authorized\x7d \x7btry again\x7d]"⟩) := by
  refine ⟨rfl, rfl, ?_⟩
  obtain ⟨err, hval, hmsg, _⟩ :=
    (makeGraphQLRequest_errors_array (constEnv "denied") organizationsQuery
      GraphQLResponse.zero deniedResponse 0 1 "denied" rfl rfl).1 (by decide)
  rw [hval]
  cases err
  simp only at hmsg
  rw [hmsg]
  rfl

/-- C8, as stated, fails: the flag `checkGitpodFile` returns on success is not
the flag decoded into the container but its negation. -/
theorem checkGitpodFile_flag_differs_from_decoded :
    (makeGraphQLRequest (constEnv "dir") (gitpodFileQuery "web") GraphQLResponse.zero 0).val
        = (dirResponse, none)
      ∧ (checkGitpodFile (constEnv "dir") "web" 0).val
          ≠ (dirResponse.Data.Repository.File.IsDirectory, none) := by
  decide

/-- C8, amended: each wrapper invokes the executor exactly once, with its own
query and a zero-valued container; an error of the executor is returned as it
is, with the empty list or `false`; on success the error is nil and the value
is the decoded node list, respectively the negation of the decoded
`IsDirectory` flag. -/
theorem wrappers_call_once_and_propagate {σ : Type} (env : Env σ) (w : σ)
    (orgName repoName : String) :
    ((getOrganizations env w).trace = [Event.call organizationsQuery]
        ∧ (getOrganizations env w).world
            = (makeGraphQLRequest env organizationsQuery GraphQLResponse.zero w).world
        ∧ (∀ c e, (makeGraphQLRequest env organizationsQuery GraphQLResponse.zero w).val
              = (c, some e) → (getOrganizations env w).val = ([], some e))
        ∧ (∀ c, (makeGraphQLRequest env organizationsQuery GraphQLResponse.zero w).val
              = (c, none) → (getOrganizations env w).val = (c.Data.Organizations.Nodes, none)))
      ∧ ((getRepositories env orgName w).trace = [Event.call (repositoriesQuery orgName)]
        ∧ (getRepositories env orgName w).world
            = (makeGraphQLRequest env (repositoriesQuery orgName) GraphQLResponse.zero w).world
        ∧ (∀ c e, (makeGraphQLRequest env (repositoriesQuery orgName) GraphQLResponse.zero w).val
              = (c, some e) → (getRepositories env orgName w).val = ([], some e))
        ∧ (∀ c, (makeGraphQLRequest env (repositoriesQuery orgName) GraphQLResponse.zero w).val
              = (c, none) →
            (getRepositories env orgName w).val
              = (c.Data.Organization.Repositories.Nodes, none)))
      ∧ ((checkGitpodFile env repoName w).trace = [Event.call (gitpodFileQuery repoName)]
        ∧ (checkGitpodFile env repoName w).world
            = (makeGraphQLRequest env (gitpodFileQuery repoName) GraphQLResponse.zero w).world
        ∧ (∀ c e, (makeGraphQLRequest env (gitpodFileQuery repoName) GraphQLResponse.zero w).val
              = (c, some e) → (checkGitpodFile env repoName w).val = (false, some e))
        ∧ (∀ c, (makeGraphQLRequest env (gitpodFileQuery repoName) GraphQLResponse.zero w).val
              = (c, none) →
            (checkGitpodFile env repoName w).val
              = (!c.Data.Repository.File.IsDirectory, none))) := by
  refine ⟨⟨getOrganizations_trace env w, ?_, ?_, ?_⟩,
    ⟨getRepositories_trace env orgName w, ?_, ?_, ?_⟩,
    ⟨checkGitpodFile_trace env repoName w, ?_, ?_, ?_⟩⟩
  · simp only [getOrganizations]
    split <;> rfl
  · intro c e h
    rw [getOrganizations_val, h]
  · intro c h
    rw [getOrganizations_val, h]
  · simp only [getRepositories]
    split <;> rfl
  · intro c e h
    rw [getRepositories_val, h]
  · intro c h
    rw [getRepositories_val, h]
  · simp only [checkGitpodFile]
    split <;> rfl
  · intro c e h
    rw [checkGitpodFile_val, h]
  · intro c h
    rw [checkGitpodFile_val, h]

/-- C9, as stated, fails: a reply holding 101 nodes is returned whole, by
`getOrganizations` and by `getRepositories`. -/
theorem listers_return_more_than_100 :
    (getOrganizations (constEnv "many") 0).val.2 = none
      ∧ (getOrganizations (constEnv "many") 0).val.1.length = 101
      ∧ (getRepositories (constEnv "many") "acme" 0).val.2 = none
      ∧ (getRepositories (constEnv "many") "acme" 0).val.1.length = 101
      ∧ ¬ ((getOrganizations (constEnv "many") 0).val.1.length ≤ 100
          ∧ (getRepositories (constEnv "many") "acme" 0).val.1.length ≤ 100) := by
  decide

/-- C9, amended: each lister sends one query, which asks for the first 100
nodes, and returns what the executor yields: on success the decoded node
list whole, whatever its length, with a nil error; on failure the empty list
with the error. The returned list therefore has at most 100 entries whenever
the node list in the executor's container has at most 100. -/
theorem listers_return_decoded_nodes_whole {σ : Type} (env : Env σ) (w : σ)
    (orgName : String) :
    (∀ c, (makeGraphQLRequest env organizationsQuery GraphQLResponse.zero w).val = (c, none) →
        (getOrganizations env w).val = (c.Data.Organizations.Nodes, none))
      ∧ (∀ c e, (makeGraphQLRequest env organizationsQuery GraphQLResponse.zero w).val
            = (c, some e) → (getOrganizations env w).val = ([], some e))
      ∧ (∀ c, (makeGraphQLRequest env (repositoriesQuery orgName) GraphQLResponse.zero w).val
            = (c, none) →
          (getRepositories env orgName w).val
            = (c.Data.Organization.Repositories.Nodes, none))
      ∧ (∀ c e, (makeGraphQLRequest env (repositoriesQuery orgName) GraphQLResponse.zero w).val
            = (c, some e) → (getRepositories env orgName w).val = ([], some e))
      ∧ queries (getOrganizations env w).trace = [organizationsQuery]
      ∧ queries (getRepositories env orgName w).trace = [repositoriesQuery orgName]
      ∧ (∃ a b, organizationsQuery = a ++ "organizations(first: 100)" ++ b)
      ∧ (∃ a b, repositoriesQuery orgName = a ++ "repositories(first: 100)" ++ b)
      ∧ ((makeGraphQLRequest env organizationsQuery
            GraphQLResponse.zero w).val.1.Data.Organizations.Nodes.length ≤ 100 →
          (getOrganizations env w).val.1.length ≤ 100)
      ∧ ((makeGraphQLRequest env (repositoriesQuery orgName)
            GraphQLResponse.zero w).val.1.Data.Organization.Repositories.Nodes.length ≤ 100 →
          (getRepositories env orgName w).val.1.length ≤ 100) := by
  refine ⟨?_, ?_, ?_, ?_, ?_, ?_, ?_, ?_, ?_, ?_⟩
  · intro c h
    rw [getOrganizations_val, h]
  · intro c e h
    rw [getOrganizations_val, h]
  · intro c h
    rw [getRepositories_val, h]
  · intro c e h
    rw [getRepositories_val, h]
  · rw [getOrganizations_trace]
    rfl
  · rw [getRepositories_trace]
    rfl
  · exact ⟨"\x7b\n\t\t", " \x7b\n\t\t\tnodes \x7b\n\t\t\t\tname\n\t\t\t\x7d\n\t\t\x7d\n\t\x7d",
      by decide⟩
  · refine ⟨"\x7b\n\t\torganization(name: \"" ++ orgName ++ "\") \x7b\n\t\t\t",
      " \x7b\n\t\t\t\tnodes \x7b\n\t\t\t\t\tname\n\t\t\t\t\x7d\n\t\t\t\x7d\n\t\t\x7d\n\t\x7d", ?_⟩
    unfold repositoriesQuery
    simp only [String.append_assoc]
    rfl
  · intro h1
    rw [getOrganizations_val]
    split
    · simp
    · rename_i hv
      rw [hv] at h1
      exact h1
  · intro h2
    rw [getRepositories_val]
    split
    · simp
    · rename_i hv
      rw [hv] at h2
      exact h2

/-! ## Facts about printed texts and queries -/

theorem orgLine_eq (n : String) :
    sprintln ["Organization:", n] = "Organization: " ++ n := rfl

theorem repoLine_eq (n : String) :
    sprintln ["  - Repository:", n] = "  - Repository: " ++ n := rfl

theorem fetchErrorLine_eq (e : String) :
    sprintln ["Error fetching organizations:", e] = "Error fetching organizations: " ++ e := rfl

theorem listingErrorLine_eq (n e : String) :
    sprintln ["Error fetching repositories for organization", n, ":", e]
      = "Error fetching repositories for organization " ++ n ++ " : " ++ e := by
  apply String.ext
  simp [sprintln, String.data_append]

/-- The lines of the form `Organization: <name>` are those `isOrgLine` accepts. -/
theorem isOrgLine_iff (l : String) :
    isOrgLine l = true ↔ ∃ name : String, l = "Organization: " ++ name := by
  constructor
  · intro h
    have hp : "Organization: ".data <+: l.data := by simpa [isOrgLine] using h
    obtain ⟨t, ht⟩ := hp
    refine ⟨⟨t⟩, ?_⟩
    apply String.ext
    rw [String.data_append, ← ht]
  · rintro ⟨name, rfl⟩
    simp [isOrgLine, String.data_append]

theorem isOrgLine_orgLine (n : String) : isOrgLine (sprintln ["Organization:", n]) = true := by
  simp [isOrgLine, sprintln, String.data_append]

theorem isOrgLine_listingError (n e : String) :
    isOrgLine (sprintln ["Error fetching repositories for organization", n, ":", e]) = false := by
  simp [isOrgLine, sprintln, String.data_append]

theorem isOrgLine_checkError (n e : String) :
    isOrgLine (sprintln ["Error checking .gitpod.yml for repository", n, ":", e]) = false := by
  simp [isOrgLine, sprintln, String.data_append]

theorem isOrgLine_repoLine (n : String) :
    isOrgLine (sprintln ["  - Repository:", n]) = false := by
  simp [isOrgLine, sprintln, String.data_append]

theorem isOrgLine_fetchError (e : String) :
    isOrgLine (sprintln ["Error fetching organizations:", e]) = false := by
  simp [isOrgLine, sprintln, String.data_append]

theorem isRepoLine_listingError (n e : String) :
    isRepoLine (sprintln ["Error fetching repositories for organization", n, ":", e]) = false := by
  simp [isRepoLine, sprintln, String.data_append]

theorem isRepoLine_fetchError (e : String) :
    isRepoLine (sprintln ["Error fetching organizations:", e]) = false := by
  simp [isRepoLine, sprintln, String.data_append]

theorem isListingQuery_repositoriesQuery (n : String) :
    isListingQuery (repositoriesQuery n) = true := by
  simp [isListingQuery, repositoriesQuery, String.data_append]

theorem isListingQuery_gitpodFileQuery (n : String) :
    isListingQuery (gitpodFileQuery n) = false := by
  simp [isListingQuery, gitpodFileQuery, String.data_append]

theorem isListingQuery_organizationsQuery : isListingQuery organizationsQuery = false := by
  decide

theorem isFileCheckQuery_repositoriesQuery (n : String) :
    isFileCheckQuery (repositoriesQuery n) = false := by
  simp [isFileCheckQuery, repositoriesQuery, String.data_append]

theorem isFileCheckQuery_organizationsQuery : isFileCheckQuery organizationsQuery = false := by
  decide

/-! ## Facts about the loops -/

/-- One turn of the inner loop: the call, then at most one line. -/
theorem checkRepo_trace {σ : Type} (env : Env σ) (repo : Repository) (w : σ) :
    (checkRepo env repo w).trace =
      Event.call (gitpodFileQuery repo.Name) ::
        match (checkGitpodFile env repo.Name w).val with
        | (_, some err) =>
          [Event.print (sprintln ["Error checking .gitpod.yml for repository", repo.Name, ":",
            err.msg])]
        | (true, none) => [Event.print (sprintln ["  - Repository:", repo.Name])]
        | (false, none) => [] := by
  simp only [checkRepo]
  split
  · rename_i hv
    simp [checkGitpodFile_trace, hv]
  · rename_i has hv
    cases has <;> simp [checkGitpodFile_trace, hv]

theorem checkRepo_queries {σ : Type} (env : Env σ) (repo : Repository) (w : σ) :
    queries (checkRepo env repo w).trace = [gitpodFileQuery repo.Name] := by
  rw [checkRepo_trace]
  split <;> rfl

theorem checkRepo_no_orgLine {σ : Type} (env : Env σ) (repo : Repository) (w : σ) :
    (printed (checkRepo env repo w).trace).filter isOrgLine = [] := by
  rw [checkRepo_trace]
  split
  · simp [printed, isOrgLine_checkError]
  · simp [printed, isOrgLine_repoLine]
  · simp [printed]

theorem checkRepos_queries {σ : Type} (env : Env σ) (repos : List Repository) (w : σ) :
    queries (checkRepos env repos w).trace = repos.map (fun r => gitpodFileQuery r.Name) := by
  induction repos generalizing w with
  | nil => rfl
  | cons r rest ih => simp [checkRepos, queries_append, checkRepo_queries, ih]

theorem checkRepos_no_orgLine {σ : Type} (env : Env σ) (repos : List Repository) (w : σ) :
    (printed (checkRepos env repos w).trace).filter isOrgLine = [] := by
  induction repos generalizing w with
  | nil => rfl
  | cons r rest ih =>
    simp only [checkRepos, printed_append, List.filter_append, checkRepo_no_orgLine, ih,
      List.append_nil]

/-- One turn of the outer loop: the line, the listing call, then either the
error line or the inner loop. -/
theorem processOrg_trace {σ : Type} (env : Env σ) (org : Organization) (w : σ) :
    (processOrg env org w).trace =
      Event.print (sprintln ["Organization:", org.Name]) ::
        Event.call (repositoriesQuery org.Name) ::
          match (getRepositories env org.Name w).val with
          | (_, some err) =>
            [Event.print (sprintln ["Error fetching repositories for organization", org.Name,
              ":", err.msg])]
          | (repos, none) =>
            (checkRepos env repos (getRepositories env org.Name w).world).trace := by
  simp only [processOrg]
  split
  · rename_i hv
    simp [getRepositories_trace, hv]
  · rename_i hv
    simp [getRepositories_trace, hv]

theorem processOrg_world {σ : Type} (env : Env σ) (org : Organization) (w : σ) :
    (processOrg env org w).world =
      match (getRepositories env org.Name w).val with
      | (_, some _) => (getRepositories env org.Name w).world
      | (repos, none) => (checkRepos env repos (getRepositories env org.Name w).world).world := by
  simp only [processOrg]
  split
  · rename_i hv
    simp [hv]
  · rename_i hv
    simp [hv]

theorem processOrg_orgLines {σ : Type} (env : Env σ) (org : Organization) (w : σ) :
    (printed (processOrg env org w).trace).filter isOrgLine
      = [sprintln ["Organization:", org.Name]] := by
  rw [processOrg_trace]
  split
  · simp [printed, isOrgLine_orgLine, isOrgLine_listingError]
  · simpa [printed, isOrgLine_orgLine] using checkRepos_no_orgLine env _ _

theorem processOrg_listingQueries {σ : Type} (env : Env σ) (org : Organization) (w : σ) :
    (queries (processOrg env org w).trace).filter isListingQuery
      = [repositoriesQuery org.Name] := by
  rw [processOrg_trace]
  split
  · simp [queries, isListingQuery_repositoriesQuery]
  · simp [queries, isListingQuery_repositoriesQuery, checkRepos_queries, List.filter_eq_nil_iff,
      isListingQuery_gitpodFileQuery]

theorem processOrgs_append {σ : Type} (env : Env σ) (a b : List Organization) (w : σ) :
    (processOrgs env (a ++ b) w).trace
        = (processOrgs env a w).trace ++ (processOrgs env b (processOrgs env a w).world).trace
      ∧ (processOrgs env (a ++ b) w).world
        = (processOrgs env b (processOrgs env a w).world).world := by
  induction a generalizing w with
  | nil => simp [processOrgs]
  | cons o rest ih =>
    obtain ⟨h1, h2⟩ := ih (processOrg env o w).world
    simp [processOrgs, h1, h2]

theorem processOrgs_orgLines {σ : Type} (env : Env σ) (orgs : List Organization) (w : σ) :
    (printed (processOrgs env orgs w).trace).filter isOrgLine
      = orgs.map (fun o => sprintln ["Organization:", o.Name]) := by
  induction orgs generalizing w with
  | nil => rfl
  | cons o rest ih =>
    simp only [processOrgs, printed_append, List.filter_append, processOrg_orgLines, ih,
      List.map_cons, List.singleton_append]

theorem processOrgs_listingQueries {σ : Type} (env : Env σ) (orgs : List Organization) (w : σ) :
    (queries (processOrgs env orgs w).trace).filter isListingQuery
      = orgs.map (fun o => repositoriesQuery o.Name) := by
  induction orgs generalizing w with
  | nil => rfl
  | cons o rest ih =>
    simp only [processOrgs, queries_append, List.filter_append, processOrg_listingQueries, ih,
      List.map_cons, List.singleton_append]

/-- The trace of `main` when the organizations are fetched. -/
theorem main_of_success {σ : Type} (env : Env σ) (w : σ) (orgs : List Organization)
    (h : (getOrganizations env w).val = (orgs, none)) :
    (main env w).val = 0
      ∧ (main env w).trace
        = Event.call organizationsQuery ::
            (processOrgs env orgs (getOrganizations env w).world).trace
      ∧ (main env w).world = (processOrgs env orgs (getOrganizations env w).world).world := by
  simp only [main]
  split
  · rename_i hv
    rw [hv] at h
    simp at h
  · rename_i hv
    rw [hv] at h
    simp only [Prod.mk.injEq, and_true] at h
    subst h
    simp [getOrganizations_trace]

/-- The trace of `main` when fetching the organizations fails. -/
theorem main_of_failure {σ : Type} (env : Env σ) (w : σ) (orgs : List Organization)
    (err : GoError) (h : (getOrganizations env w).val = (orgs, some err)) :
    (main env w).val = 1
      ∧ (main env w).trace
        = [Event.call organizationsQuery,
            Event.print (sprintln ["Error fetching organizations:", err.msg])]
      ∧ (main env w).world = (getOrganizations env w).world := by
  simp only [main]
  split
  · rename_i hv
    rw [hv] at h
    simp only [Prod.mk.injEq, Option.some.injEq] at h
    obtain ⟨_, h⟩ := h
    subst h
    simp [getOrganizations_trace]
  · rename_i hv
    rw [hv] at h
    simp at h

/-! ## Facts about the lines of standard output -/

theorem splitLines_line (l rest : List Char) (h : '\n' ∉ l) :
    splitLines (l ++ '\n' :: rest) = l :: splitLines rest := by
  induction l with
  | nil => simp [splitLines]
  | cons c l ih =>
    have hc : c ≠ '\n' := fun hc => h (by simp [hc])
    have hl : '\n' ∉ l := fun hl => h (List.mem_cons_of_mem _ hl)
    simp [splitLines, hc, ih hl]

theorem splitLines_terminated_ne_nil (l : List Char) : splitLines (l ++ ['\n']) ≠ [] := by
  induction l with
  | nil => simp [splitLines]
  | cons c l ih =>
    by_cases hc : c = '\n'
    · simp [splitLines, hc]
    · simp only [List.cons_append, splitLines, hc, if_false]
      split <;> simp

theorem splitLines_append_terminated (l rest : List Char) :
    splitLines (l ++ '\n' :: rest) = splitLines (l ++ ['\n']) ++ splitLines rest := by
  induction l with
  | nil => simp [splitLines]
  | cons c l ih =>
    by_cases hc : c = '\n'
    · simp [splitLines, hc, ih]
    · have hne := splitLines_terminated_ne_nil l
      simp only [List.cons_append, splitLines, hc, if_false, List.append_eq]
      rw [ih]
      cases hs : splitLines (l ++ ['\n']) with
      | nil => exact absurd hs hne
      | cons a b => rfl

theorem stdoutChars_append (a b : List Event) :
    stdoutChars (a ++ b) = stdoutChars a ++ stdoutChars b := by
  induction a with
  | nil => rfl
  | cons e t ih => cases e <;> simp [stdoutChars, ih]

theorem splitLines_stdoutChars_append (a : List Event) (rest : List Char) :
    splitLines (stdoutChars a ++ rest) = splitLines (stdoutChars a) ++ splitLines rest := by
  induction a with
  | nil => simp [stdoutChars, splitLines]
  | cons e t ih =>
    cases e with
    | call q => simpa [stdoutChars] using ih
    | print l =>
      simp only [stdoutChars, List.append_assoc, List.cons_append]
      rw [splitLines_append_terminated l.data (stdoutChars t ++ rest),
        splitLines_append_terminated l.data (stdoutChars t), ih, List.append_assoc]

/-- The lines of the output of two traces in a row are the lines of the first
followed by the lines of the second. -/
theorem outputLines_append (a b : List Event) :
    outputLines (a ++ b) = outputLines a ++ outputLines b := by
  simp [outputLines, stdoutChars_append, splitLines_stdoutChars_append]

theorem outputLines_call_cons (q : String) (t : List Event) :
    outputLines (Event.call q :: t) = outputLines t := rfl

/-- A text without newline is one line of the output. -/
theorem outputLines_print_cons (l : String) (t : List Event) (h : '\n' ∉ l.data) :
    outputLines (Event.print l :: t) = l :: outputLines t := by
  simp [outputLines, stdoutChars, splitLines_line _ _ h]

theorem newlineFree_print_cons (l : String) (t : List Event) :
    NewlineFree (Event.print l :: t) ↔ '\n' ∉ l.data ∧ NewlineFree t := by
  simp [NewlineFree, printed]

/-- When no printed text holds a newline, the lines of the output are the
texts of the `fmt.Println` calls. -/
theorem outputLines_eq_printed (t : List Event) (h : NewlineFree t) :
    outputLines t = printed t := by
  induction t with
  | nil => rfl
  | cons e t ih =>
    cases e with
    | call q => exact ih h
    | print l =>
      obtain ⟨hl, ht⟩ := (newlineFree_print_cons l t).mp h
      rw [outputLines_print_cons l t hl, ih ht]
      rfl

theorem isRepoLine_orgLine (n : String) :
    isRepoLine (sprintln ["Organization:", n]) = false := by
  simp [isRepoLine, sprintln, String.data_append]

theorem isOrgLine_fetchErrorText (e : String) :
    isOrgLine ("Error fetching organizations: " ++ e) = false :=
  isOrgLine_fetchError e

theorem isRepoLine_fetchErrorText (e : String) :
    isRepoLine ("Error fetching organizations: " ++ e) = false :=
  isRepoLine_fetchError e

theorem newline_not_mem_orgLine (n : String) (h : '\n' ∉ n.data) :
    '\n' ∉ ("Organization: " ++ n).data := by
  simp [String.data_append, h]

theorem newline_not_mem_fetchErrorLine (e : String) (h : '\n' ∉ e.data) :
    '\n' ∉ ("Error fetching organizations: " ++ e).data := by
  simp [String.data_append, h]

theorem newline_not_mem_listingErrorLine (n e : String) (hn : '\n' ∉ n.data)
    (he : '\n' ∉ e.data) :
    '\n' ∉ ("Error fetching repositories for organization " ++ n ++ " : " ++ e).data := by
  simp [String.data_append, hn, he]

/-! ## Properties of the orchestrator -/

/-- C4, as stated, fails: with two organizations fetched, a listing error
that quotes a body of two lines puts four lines of the form
`Organization: <name>` on standard output. -/
theorem organization_lines_exceed_fetched :
    (getOrganizations ghostEnv 0).val = ([⟨"acme"⟩, ⟨"globex"⟩], none)
      ∧ (outputLines (main ghostEnv 0).trace).filter isOrgLine
        = ["Organization: acme", "Organization: ghost",
            "Organization: globex", "Organization: ghost"]
      ∧ ((outputLines (main ghostEnv 0).trace).filter isOrgLine).length ≠ 2 := by
  decide

/-- C4, amended: when the organizations are fetched, the `fmt.Println` calls
of `main` whose text has the form `Organization: <name>` are exactly one per
fetched organization, in the order of the fetched list, whatever the listing
and file-check calls yield; when no text `main` prints holds a newline, the
lines of that form on standard output are exactly these, one per
organization and in the same order. -/
theorem main_prints_each_organization {σ : Type} (env : Env σ) (w : σ)
    (orgs : List Organization) (h : (getOrganizations env w).val = (orgs, none)) :
    (printed (main env w).trace).filter isOrgLine
        = orgs.map (fun o => "Organization: " ++ o.Name)
      ∧ (NewlineFree (main env w).trace →
          (outputLines (main env w).trace).filter isOrgLine
              = orgs.map (fun o => "Organization: " ++ o.Name)
            ∧ ((outputLines (main env w).trace).filter isOrgLine).length = orgs.length) := by
  have hlines : (printed (main env w).trace).filter isOrgLine
      = orgs.map (fun o => "Organization: " ++ o.Name) := by
    rw [(main_of_success env w orgs h).2.1]
    simp only [printed]
    exact processOrgs_orgLines env orgs _
  refine ⟨hlines, ?_⟩
  intro hfree
  rw [outputLines_eq_printed _ hfree, hlines, List.length_map]
  exact ⟨rfl, rfl⟩

/-- Witness of C4, amended: the two organizations of the scripted server. -/
theorem main_prints_each_organization_witness :
    (getOrganizations demoEnv 0).val = ([⟨"acme"⟩, ⟨"globex"⟩], none)
      ∧ NewlineFree (main demoEnv 0).trace
      ∧ (outputLines (main demoEnv 0).trace).filter isOrgLine
        = ["Organization: acme", "Organization: globex"] :=
  ⟨by decide, by decide,
    ((main_prints_each_organization demoEnv 0 [⟨"acme"⟩, ⟨"globex"⟩] (by decide)).2
      (by decide)).1⟩

/-- C5, as stated, fails: when fetching the organizations fails with an error
page of four lines, standard output holds four lines, among them one of the
form `Organization: <name>` and one of the form `  - Repository: <name>`. -/
theorem fetch_error_spans_lines :
    (getOrganizations errorPageEnv 0).val.2
        = some ⟨"API request failed with status code 502: " ++
            "<html>\nOrganization: x\n  - Repository: y\n</html>"⟩
      ∧ outputLines (main errorPageEnv 0).trace
        = ["Error fetching organizations: API request failed with status code 502: <html>",
            "Organization: x", "  - Repository: y", "</html>"]
      ∧ (outputLines (main errorPageEnv 0).trace).length ≠ 1
      ∧ (outputLines (main errorPageEnv 0).trace).filter isOrgLine = ["Organization: x"]
      ∧ (outputLines (main errorPageEnv 0).trace).filter isRepoLine
        = ["  - Repository: y"] := by
  decide

/-- C5, amended: when fetching the organizations fails, `main` exits with
code 1 after the one executor call (the organizations query: no listing
call, no file check) and one `fmt.Println` call, which writes
`Error fetching organizations: <error>` and a newline; when the text of the
error holds no newline, standard output is that one line, which has neither
the form `Organization: <name>` nor the form `  - Repository: <name>`. -/
theorem main_aborts_on_fetch_error {σ : Type} (env : Env σ) (w : σ)
    (orgs : List Organization) (err : GoError)
    (h : (getOrganizations env w).val = (orgs, some err)) :
    (main env w).val = 1
      ∧ (main env w).trace
        = [Event.call organizationsQuery,
            Event.print ("Error fetching organizations: " ++ err.msg)]
      ∧ stdoutChars (main env w).trace
        = ("Error fetching organizations: " ++ err.msg).data ++ ['\n']
      ∧ queries (main env w).trace = [organizationsQuery]
      ∧ (∀ q ∈ queries (main env w).trace,
          isListingQuery q = false ∧ isFileCheckQuery q = false)
      ∧ ('\n' ∉ err.msg.data →
          outputLines (main env w).trace = ["Error fetching organizations: " ++ err.msg]
            ∧ (∀ l ∈ outputLines (main env w).trace,
                isOrgLine l = false ∧ isRepoLine l = false)) := by
  obtain ⟨hval, htrace, _⟩ := main_of_failure env w orgs err h
  rw [fetchErrorLine_eq] at htrace
  refine ⟨hval, htrace, ?_, ?_, ?_, ?_⟩
  · rw [htrace]
    rfl
  · rw [htrace]
    rfl
  · intro q hq
    rw [htrace] at hq
    simp only [queries, List.mem_singleton] at hq
    subst hq
    exact ⟨isListingQuery_organizationsQuery, isFileCheckQuery_organizationsQuery⟩
  · intro hnl
    have hout : outputLines (main env w).trace
        = ["Error fetching organizations: " ++ err.msg] := by
      rw [htrace, outputLines_call_cons,
        outputLines_print_cons _ _ (newline_not_mem_fetchErrorLine _ hnl)]
      rfl
    refine ⟨hout, ?_⟩
    intro l hl
    rw [hout, List.mem_singleton] at hl
    subst hl
    exact ⟨isOrgLine_fetchErrorText _, isRepoLine_fetchErrorText _⟩

/-- Witness of C5, amended: the server cannot be reached. -/
theorem main_aborts_on_fetch_error_witness :
    (getOrganizations downEnv 0).val = ([], some ⟨"connection refused"⟩)
      ∧ '\n' ∉ "connection refused".data
      ∧ (main downEnv 0).val = 1
      ∧ outputLines (main downEnv 0).trace
        = ["Error fetching organizations: connection refused"] :=
  ⟨by decide, by decide,
    (main_aborts_on_fetch_error downEnv 0 [] ⟨"connection refused"⟩ (by decide)).1,
    ((main_aborts_on_fetch_error downEnv 0 [] ⟨"connection refused"⟩
      (by decide)).2.2.2.2.2 (by decide)).1⟩

/-- C6, as stated, fails, in two ways. A server that turns away only the
first request it receives: with `acme` before it, `globex` is listed and its
repositories are checked; alone in the list, its listing fails. And a failed
listing whose body has two lines puts a line of the form
`  - Repository: <name>` on standard output in the turn of the failed
organization. -/
theorem failed_listing_alters_later_turns :
    (getRepositories flakyEnv "acme" (processOrgs flakyEnv [] 0).world).val
        = ([], some ⟨"API request failed with status code 503: busy"⟩)
      ∧ outputLines (processOrgs flakyEnv ([] ++ ⟨"acme"⟩ :: [⟨"globex"⟩]) 0).trace
        = ["Organization: acme",
            "Error fetching repositories for organization acme : " ++
              "API request failed with status code 503: busy",
            "Organization: globex", "  - Repository: web", "  - Repository: api",
            "  - Repository: docs"]
      ∧ outputLines (processOrgs flakyEnv ([] ++ [⟨"globex"⟩]) 0).trace
        = ["Organization: globex",
            "Error fetching repositories for organization globex : " ++
              "API request failed with status code 503: busy"]
      ∧ (getRepositories fakeListingEnv "acme" 0).val
        = ([], some ⟨"API request failed with status code 502: x\n  - Repository: fake"⟩)
      ∧ outputLines (processOrg fakeListingEnv ⟨"acme"⟩ 0).trace
        = ["Organization: acme",
            "Error fetching repositories for organization acme : " ++
              "API request failed with status code 502: x",
            "  - Repository: fake"]
      ∧ (outputLines (processOrg fakeListingEnv ⟨"acme"⟩ 0).trace).filter isRepoLine
        = ["  - Repository: fake"] := by
  decide

/-- C6, amended: when listing the repositories of an organization fails,
wherever the organization stands in the list, its turn consists of the
`fmt.Println` of its line, the listing call and one `fmt.Println` of an error
text that names it and quotes the error: no file check and no `fmt.Println`
of a repository line. The loop then goes on over the later organizations from
the world the failed call left, and standard output is the output of the
earlier turns, of this turn and of the later turns in a row. When neither the
name nor the text of the error holds a newline, the output of the turn is the
two lines `Organization: <name>` and the error line, neither of the form
`  - Repository: <name>`. When the failed call left the world as it was, the
later organizations are processed exactly as in the run on the list without
the failed organization. In every case each organization of the list, the
later ones included, gets the `fmt.Println` of its line and its listing call,
in order, and the first of the later organizations is processed next. -/
theorem failed_listing_skips_only_that_organization {σ : Type} (env : Env σ)
    (before after : List Organization) (org : Organization) (w : σ)
    (repos : List Repository) (err : GoError)
    (h : (getRepositories env org.Name (processOrgs env before w).world).val
      = (repos, some err)) :
    (processOrg env org (processOrgs env before w).world).trace
        = [Event.print ("Organization: " ++ org.Name),
            Event.call (repositoriesQuery org.Name),
            Event.print ("Error fetching repositories for organization " ++ org.Name
              ++ " : " ++ err.msg)]
      ∧ (processOrg env org (processOrgs env before w).world).world
        = (getRepositories env org.Name (processOrgs env before w).world).world
      ∧ isFileCheckQuery (repositoriesQuery org.Name) = false
      ∧ (processOrgs env (before ++ org :: after) w).trace
        = (processOrgs env before w).trace
          ++ (processOrg env org (processOrgs env before w).world).trace
          ++ (processOrgs env after
              (getRepositories env org.Name (processOrgs env before w).world).world).trace
      ∧ (processOrgs env (before ++ org :: after) w).world
        = (processOrgs env after
            (getRepositories env org.Name (processOrgs env before w).world).world).world
      ∧ outputLines (processOrgs env (before ++ org :: after) w).trace
        = outputLines (processOrgs env before w).trace
          ++ outputLines (processOrg env org (processOrgs env before w).world).trace
          ++ outputLines (processOrgs env after
              (getRepositories env org.Name (processOrgs env before w).world).world).trace
      ∧ ('\n' ∉ org.Name.data → '\n' ∉ err.msg.data →
          outputLines (processOrg env org (processOrgs env before w).world).trace
              = ["Organization: " ++ org.Name,
                  "Error fetching repositories for organization " ++ org.Name
                    ++ " : " ++ err.msg]
            ∧ ∀ l ∈ outputLines (processOrg env org (processOrgs env before w).world).trace,
                isRepoLine l = false)
      ∧ ((getRepositories env org.Name (processOrgs env before w).world).world
            = (processOrgs env before w).world →
          (processOrgs env (before ++ org :: after) w).trace
              = (processOrgs env before w).trace
                ++ (processOrg env org (processOrgs env before w).world).trace
                ++ (processOrgs env after (processOrgs env before w).world).trace
            ∧ (processOrgs env (before ++ after) w).trace
              = (processOrgs env before w).trace
                ++ (processOrgs env after (processOrgs env before w).world).trace
            ∧ (processOrgs env (before ++ org :: after) w).world
              = (processOrgs env (before ++ after) w).world)
      ∧ (printed (processOrgs env (before ++ org :: after) w).trace).filter isOrgLine
        = (before ++ org :: after).map (fun o => "Organization: " ++ o.Name)
      ∧ (queries (processOrgs env (before ++ org :: after) w).trace).filter isListingQuery
        = (before ++ org :: after).map (fun o => repositoriesQuery o.Name)
      ∧ (∀ (next : Organization) (rest : List Organization), after = next :: rest →
          (processOrgs env after
              (getRepositories env org.Name (processOrgs env before w).world).world).trace
            = (processOrg env next
                (getRepositories env org.Name (processOrgs env before w).world).world).trace
              ++ (processOrgs env rest
                  (processOrg env next
                    (getRepositories env org.Name
                      (processOrgs env before w).world).world).world).trace) := by
  have htrace := processOrg_trace env org (processOrgs env before w).world
  have hworld := processOrg_world env org (processOrgs env before w).world
  rw [h] at htrace hworld
  simp only at htrace hworld
  rw [listingErrorLine_eq, orgLine_eq] at htrace
  have hfull := processOrgs_append env before (org :: after) w
  have hskip := processOrgs_append env before after w
  simp only [processOrgs] at hfull
  rw [hworld] at hfull
  have hfulltrace : (processOrgs env (before ++ org :: after) w).trace
      = (processOrgs env before w).trace
        ++ (processOrg env org (processOrgs env before w).world).trace
        ++ (processOrgs env after
            (getRepositories env org.Name (processOrgs env before w).world).world).trace := by
    rw [hfull.1, List.append_assoc]
  refine ⟨htrace, hworld, isFileCheckQuery_repositoriesQuery _, hfulltrace, hfull.2, ?_, ?_, ?_,
    processOrgs_orgLines env _ w, processOrgs_listingQueries env _ w, ?_⟩
  · rw [hfulltrace, outputLines_append, outputLines_append]
  · intro hn he
    have hout : outputLines (processOrg env org (processOrgs env before w).world).trace
        = ["Organization: " ++ org.Name,
            "Error fetching repositories for organization " ++ org.Name
              ++ " : " ++ err.msg] := by
      rw [htrace, outputLines_print_cons _ _ (newline_not_mem_orgLine _ hn),
        outputLines_call_cons,
        outputLines_print_cons _ _ (newline_not_mem_listingErrorLine _ _ hn he)]
      rfl
    refine ⟨hout, ?_⟩
    intro l hl
    rw [hout] at hl
    simp only [List.mem_cons, List.mem_singleton, List.not_mem_nil, or_false] at hl
    rcases hl with hl | hl
    · subst hl
      exact isRepoLine_orgLine org.Name
    · subst hl
      rw [← listingErrorLine_eq]
      exact isRepoLine_listingError org.Name err.msg
  · intro hsame
    rw [hsame] at hfulltrace
    refine ⟨hfulltrace, hskip.1, ?_⟩
    rw [hfull.2, hskip.2, hsame]
  · intro next rest hafter
    subst hafter
    rfl

/-- Witness of C6, amended: on the server whose world no request changes,
listing the repositories of `acme`, the first of the two organizations,
fails. -/
theorem failed_listing_skips_only_that_organization_witness :
    (getRepositories staticEnv "acme" (processOrgs staticEnv [] ()).world).val
        = ([], some ⟨"API request failed with status code 502: bad gateway"⟩)
      ∧ '\n' ∉ "acme".data
      ∧ '\n' ∉ "API request failed with status code 502: bad gateway".data
      ∧ (getRepositories staticEnv "acme" (processOrgs staticEnv [] ()).world).world
        = (processOrgs staticEnv [] ()).world
      ∧ outputLines (processOrg staticEnv ⟨"acme"⟩ (processOrgs staticEnv [] ()).world).trace
        = ["Organization: acme",
            "Error fetching repositories for organization acme : " ++
              "API request failed with status code 502: bad gateway"]
      ∧ (processOrgs staticEnv ([] ++ ⟨"acme"⟩ :: [⟨"globex"⟩]) ()).trace
        = (processOrg staticEnv ⟨"acme"⟩ ()).trace
          ++ (processOrgs staticEnv ([] ++ [⟨"globex"⟩]) ()).trace := by
  have hthm := failed_listing_skips_only_that_organization staticEnv [] [⟨"globex"⟩]
    ⟨"acme"⟩ () [] ⟨"API request failed with status code 502: bad gateway"⟩ (by decide)
  refine ⟨by decide, by decide, by decide, rfl, ?_, ?_⟩
  · exact (hthm.2.2.2.2.2.2.1 (by decide) (by decide)).1
  · obtain ⟨hfull, hskip, _⟩ := hthm.2.2.2.2.2.2.2.1 rfl
    rw [hfull, hskip]
    rfl

/-- C10: `main` always ends, with exit code 0 or 1; the code is 1 exactly
when fetching the organizations fails; otherwise it is 0 and the outer loop
ran over the whole list: the trace of `main` is the fetch followed by the
whole loop, and the repositories of every fetched organization were asked
for, in order, whatever the listing and file-check calls yielded. -/
theorem main_exit_code {σ : Type} (env : Env σ) (w : σ) :
    ((main env w).val = 1 ↔ (getOrganizations env w).val.2 ≠ none)
      ∧ ((main env w).val = 0 ↔ (getOrganizations env w).val.2 = none)
      ∧ ((getOrganizations env w).val.2 = none →
          (main env w).trace
              = (getOrganizations env w).trace
                ++ (processOrgs env (getOrganizations env w).val.1
                    (getOrganizations env w).world).trace
            ∧ (queries (main env w).trace).filter isListingQuery
              = (getOrganizations env w).val.1.map (fun o => repositoriesQuery o.Name)
            ∧ (printed (main env w).trace).filter isOrgLine
              = (getOrganizations env w).val.1.map (fun o => "Organization: " ++ o.Name)) := by
  rcases hg : (getOrganizations env w).val with ⟨orgs, _ | err⟩
  · obtain ⟨hval, htrace, _⟩ := main_of_success env w orgs hg
    refine ⟨by simp [hval], by simp [hval], ?_⟩
    intro _
    refine ⟨?_, ?_, ?_⟩
    · rw [htrace, getOrganizations_trace]
      rfl
    · rw [htrace]
      simp only [queries, List.filter_cons, isListingQuery_organizationsQuery]
      exact processOrgs_listingQueries env orgs _
    · rw [htrace]
      simp only [printed]
      exact processOrgs_orgLines env orgs _
  · obtain ⟨hval, _, _⟩ := main_of_failure env w orgs err hg
    refine ⟨by simp [hval], by simp [hval], ?_⟩
    intro hnone
    simp at hnone

end SourcegraphScanner
